import Mathlib

/-!
Shallow embedding of the k8up operator executors:
`operator/backupcontroller/executor.go` (BackupExecutor) and the
check-controller executor file (CheckExecutor), together with the parts of
the surrounding data model they use.  Pure helpers are translated as Lean
functions; the effectful `Execute` entry points are translated as pure
functions from the outcomes of their external collaborators (platform
calls) to a result together with a trace of the effects they issue.
-/

set_option linter.unusedVariables false

/-- Result of Go `strconv.ParseBool`: `some b` on one of the accepted
literals, `none` when Go would return an error. -/
def parseBool (s : String) : Option Bool :=
  match s with
  | "1" | "t" | "T" | "TRUE" | "true" | "True" => some true
  | "0" | "f" | "F" | "FALSE" | "false" | "False" => some false
  | _ => none

/-- A persistent volume claim as seen by `listAndFilterPVCs`: its name, its
`Spec.AccessModes`, and its annotations (`GetAnnotations`), modelled as an
association list. -/
structure PVC where
  name : String
  accessModes : List String
  annos : List (String × String)
deriving DecidableEq, Repr

/-- Modelled from the spec: the helper `containsAccessMode` of the
backupcontroller package is not among the provided sources; the spec's
eligibility rule reads `hasAccessMode(RWX)`, i.e. membership of the mode in
the claim's access-mode list. -/
def containsAccessMode (modes : List String) (mode : String) : Bool :=
  modes.contains mode

/-- A `corev1.Volume`: a name and the single source that is set. -/
inductive VolumeSource where
  | emptyDir
  | pvcRef (claimName : String)
  | secretRef (secretName : String)
  | configMapRef (cmName : String)
deriving DecidableEq, Repr

structure Volume where
  name : String
  source : VolumeSource
deriving DecidableEq, Repr

/-- The volume `listAndFilterPVCs` builds for an accepted claim: name is the
claim's name, source is a persistent-volume-claim reference to that claim. -/
def mkPVCVolume (item : PVC) : Volume :=
  { name := item.name, source := VolumeSource.pvcRef item.name }

/-- One iteration of the claim loop in `listAndFilterPVCs`, with the guards
in the source's order: skip when not RWX and no annotation; add when no
annotation; skip when the annotation value `ParseBool`s to false (the parse
error is discarded, so an unparsable value reads as false); add otherwise. -/
def filterStep (key : String) (volumes : List Volume) (item : PVC) : List Volume :=
  let tmpAnno := item.annos.lookup key
  if !containsAccessMode item.accessModes "ReadWriteMany" && tmpAnno.isNone then
    volumes
  else if tmpAnno.isNone then
    volumes ++ [mkPVCVolume item]
  else if !((parseBool (tmpAnno.getD "")).getD false) then
    volumes
  else
    volumes ++ [mkPVCVolume item]

/-- `listAndFilterPVCs` after a successful `fetchPVCs`: fold the loop body
over the fetched claim list, starting from the empty volume list. -/
def listAndFilterPVCs (key : String) (items : List PVC) : List Volume :=
  items.foldl (filterStep key) []

/-- The claim-acceptance predicate that the loop guards implement: with no
annotation the claim must be RWX; with an annotation the value must
`ParseBool` to true (errors read as false). -/
def pvcEligible (key : String) (item : PVC) : Bool :=
  match item.annos.lookup key with
  | none => containsAccessMode item.accessModes "ReadWriteMany"
  | some v => (parseBool v).getD false

/-- The slice of the process-wide `cfg.Config` the two executors read. -/
structure Config where
  podVarDir : String
  backupAnno : String
  serviceAccount : String
deriving DecidableEq, Repr

/-- `corev1.VolumeMount`: fields used here. -/
structure VolumeMount where
  name : String
  mountPath : String
deriving DecidableEq, Repr

/-- `const _dataDirName = "k8up-dir"` from the check controller. -/
def _dataDirName : String := "k8up-dir"

/-- The fixed scratch volume the check controller builds: name
`_dataDirName`, source an empty `EmptyDir`. -/
def ku8pVolume : Volume :=
  { name := _dataDirName, source := VolumeSource.emptyDir }

/-- Count the occurrences of the fixed scratch volume in a volume list. -/
def countScratch (vols : List Volume) : Nat :=
  vols.countP (fun v => v == ku8pVolume)

/-- An entry of `Check.Spec.Volumes` (`k8upv1` volume): a name plus optional
claim / secret / config-map sources (each a pointer in Go, hence `Option`).  -/
structure SpecVolume where
  name : String
  persistentVolumeClaim : Option String
  secret : Option String
  configMap : Option String
deriving DecidableEq, Repr

/-- `Backend.Options` TLS material (`CACert`, `ClientCert`, `ClientKey`). -/
structure BackendOptions where
  caCert : String
  clientCert : String
  clientKey : String
deriving DecidableEq, Repr

/-- The parts of a `Backend` the check executor reads: optional TLS options
and optional extra volume mounts (a pointer to a slice in Go). -/
structure Backend where
  options : Option BackendOptions
  volumeMounts : Option (List VolumeMount)
deriving DecidableEq, Repr

/-- The parts of `Check.Spec` the executor reads. -/
structure CheckSpec where
  backend : Option Backend
  volumes : Option (List SpecVolume)
deriving DecidableEq, Repr

/-- A `k8upv1.Check` resource: identity plus spec. -/
structure Check where
  name : String
  ns : String
  spec : CheckSpec
deriving DecidableEq, Repr

/-- Modelled from the spec: `utils.ZeroLen` is not among the provided
sources; per its use it is true for a nil pointer or an empty slice. -/
def zeroLen (l : Option (List α)) : Bool :=
  match l with
  | none => true
  | some xs => xs.isEmpty

/-- `CheckExecutor.jobName`: `check-<resource-name>`. -/
def jobName (c : Check) : String := "check-" ++ c.name

/-- `CheckExecutor.appendOptionsArgs`: nothing without backend options;
otherwise `-caCert` when `CACert` is non-empty, and the
`-clientCert`/`-clientKey` pair when both are non-empty. -/
def appendOptionsArgs (c : Check) : List String :=
  match c.spec.backend with
  | none => []
  | some b =>
    match b.options with
    | none => []
    | some o =>
      (if o.caCert != "" then ["-caCert", o.caCert] else []) ++
      (if o.clientCert != "" && o.clientKey != "" then
        ["-clientCert", o.clientCert, "-clientKey", o.clientKey]
      else [])

/-- `CheckExecutor.setupArgs`: the fixed head then the option args. -/
def setupArgs (cfg : Config) (c : Check) : List String :=
  ["-varDir", cfg.podVarDir, "-check"] ++ appendOptionsArgs c

/-- The body of the loop in `CheckExecutor.attachMoreVolumes`: keep the
first recognized source (claim, then secret, then config-map), drop the
entry when none is set. -/
def specVolumeSource (v : SpecVolume) : Option Volume :=
  match v.persistentVolumeClaim with
  | some claim => some { name := v.name, source := VolumeSource.pvcRef claim }
  | none =>
    match v.secret with
    | some s => some { name := v.name, source := VolumeSource.secretRef s }
    | none =>
      match v.configMap with
      | some m => some { name := v.name, source := VolumeSource.configMapRef m }
      | none => none

/-- `CheckExecutor.attachMoreVolumes`: the scratch volume alone when the
spec declares no volumes, otherwise the scratch volume followed by the
declared volumes filtered to recognized sources. -/
def attachMoreVolumes (c : Check) : List Volume :=
  if zeroLen c.spec.volumes then
    [ku8pVolume]
  else
    ku8pVolume :: (c.spec.volumes.getD []).filterMap specVolumeSource

/-- `CheckExecutor.attachMoreVolumeMounts`: backend mounts (when present and
non-empty) followed by the scratch mount at the configured var dir. -/
def attachMoreVolumeMounts (cfg : Config) (c : Check) : List VolumeMount :=
  let base :=
    match c.spec.backend with
    | some b => if !zeroLen b.volumeMounts then b.volumeMounts.getD [] else []
    | none => []
  base ++ [{ name := _dataDirName, mountPath := cfg.podVarDir }]

/-- The `batchv1.Job` fields the check mutate closure writes. -/
structure BatchJob where
  name : String
  ns : String
  args : List String
  volumes : List Volume
  volumeMounts : List VolumeMount
  exclusiveLabel : String
deriving DecidableEq, Repr

/-- The mutate closure passed to `CreateOrUpdate` in `CheckExecutor.Execute`
(after the base template mutation): set mounts, volumes, the exclusivity
label, and the args. -/
def checkMutate (cfg : Config) (c : Check) (j : BatchJob) : BatchJob :=
  { j with
    volumeMounts := attachMoreVolumeMounts cfg c
    volumes := attachMoreVolumes c
    exclusiveLabel := "true"
    args := setupArgs cfg c }

/-- Observable status reports issued by `CheckExecutor.Execute`. -/
inductive CheckEffect where
  | conditionFalse (cond reason msg : String)
  | started (msg : String)
deriving DecidableEq, Repr

/-- `CheckExecutor.Execute`, as a function of the platform upsert outcome
(`CreateOrUpdate` error, `none` for success): name the job, mutate it, and
on failure report `Ready=False/CreationFailed` with the underlying error
and return it, on success report the started condition naming the job.
The returned `BatchJob` is the desired state handed to the upsert. -/
def checkExecute (cfg : Config) (c : Check) (upsertErr : Option String) :
    (Option String × List CheckEffect) × BatchJob :=
  let base : BatchJob :=
    { name := jobName c, ns := c.ns, args := [], volumes := []
      volumeMounts := [], exclusiveLabel := "" }
  let batchJob := checkMutate cfg c base
  match upsertErr with
  | some e =>
    ((some e,
      [CheckEffect.conditionFalse "Ready" "CreationFailed"
        ("could not create job: " ++ e)]), batchJob)
  | none =>
    ((none,
      [CheckEffect.started
        ("the job " ++ batchJob.ns ++ "/" ++ batchJob.name ++ " was created")]),
      batchJob)

/-- Modelled from the spec: the `k8upv1` status type is not among the
provided sources; per the spec's data model a Status is one of NotStarted,
Started, Succeeded, Failed. -/
inductive BackupPhase where
  | notStarted
  | started
  | succeeded
  | failed
deriving DecidableEq, Repr

/-- Modelled from the spec: a backup Status is a phase plus the auxiliary
`WaitingForPreBackup` sub-state; the four predicates below are the ones
`BackupExecutor.Execute` consults. -/
structure BackupStatus where
  phase : BackupPhase
  waitingForPreBackup : Bool
deriving DecidableEq, Repr

def BackupStatus.hasFailed (s : BackupStatus) : Bool :=
  s.phase == BackupPhase.failed

def BackupStatus.hasSucceeded (s : BackupStatus) : Bool :=
  s.phase == BackupPhase.succeeded

def BackupStatus.hasStarted (s : BackupStatus) : Bool :=
  s.phase == BackupPhase.started

def BackupStatus.isWaitingForPreBackup (s : BackupStatus) : Bool :=
  s.waitingForPreBackup

/-- A `k8upv1.Backup` resource: the fields `Execute` reads. -/
structure Backup where
  status : BackupStatus
deriving DecidableEq, Repr

/-- The object handed to an executor through `job.Config`; `Execute` type-
asserts it. -/
inductive K8upObject where
  | backup (b : Backup)
  | check (c : Check)
  | other (descr : String)
deriving DecidableEq, Repr

/-- `NewCheckExecutor` performs the unchecked Go type assertion
`config.Obj.(*k8upv1.Check)`; on a non-Check object that assertion panics
before any `Execute` call.  The panic is modelled as `none`. -/
def newCheckExecutor (obj : K8upObject) : Option Check :=
  match obj with
  | K8upObject.check c => some c
  | _ => none

/-- The `batchv1.Job` fields `startBackup` writes that the claims observe. -/
structure BackupJob where
  volumes : List Volume
  serviceAccountName : String
deriving DecidableEq, Repr

/-- Effects `BackupExecutor.Execute` issues against its collaborators. -/
inductive BackupEffect where
  | stopPreBackupDeployments
  | cleanupOldBackups
  | createServiceAccountAndBinding
  | conditionFalse (cond reason msg : String)
  | createObjectIfNotExisting (j : BackupJob)
deriving DecidableEq, Repr

/-- True for the workload-creation effect. -/
def BackupEffect.isCreate : BackupEffect → Bool
  | BackupEffect.createObjectIfNotExisting _ => true
  | _ => false

/-- Outcomes of the external collaborators a backup `Execute` consults:
service-account creation, base-job generation, `StartPreBackup` (an error
or a readiness bool), `fetchPVCs`, and `CreateObjectIfNotExisting`. -/
structure BackupEnv where
  createSAErr : Option String
  generateJob : Except String BackupJob
  startPre : Except String Bool
  fetchPVCsResult : Except String (List PVC)
  createErr : Option String
deriving Repr

/-- `BackupExecutor.startBackup`: ask pre-backup hooks to start (error is
fatal); defer with success when not ready or already waiting; list and
filter PVCs (on failure report `Ready=False/RetrievalFailed` and fail);
otherwise finish the job — its volume list becomes exactly the filtered PVC
volumes, its service account the configured one — and hand it to
`CreateObjectIfNotExisting`. -/
def startBackup (cfg : Config) (b : Backup) (env : BackupEnv)
    (backupJob : BackupJob) : Except String Unit × List BackupEffect :=
  match env.startPre with
  | Except.error e => (Except.error e, [])
  | Except.ok ready =>
    if !ready || b.status.isWaitingForPreBackup then
      (Except.ok (), [])
    else
      match env.fetchPVCsResult with
      | Except.error e =>
        (Except.error e, [BackupEffect.conditionFalse "Ready" "RetrievalFailed" e])
      | Except.ok items =>
        let volumes := listAndFilterPVCs cfg.backupAnno items
        let finalJob : BackupJob :=
          { backupJob with
            volumes := volumes
            serviceAccountName := cfg.serviceAccount }
        match env.createErr with
        | some e =>
          (Except.error e, [BackupEffect.createObjectIfNotExisting finalJob])
        | none =>
          (Except.ok (), [BackupEffect.createObjectIfNotExisting finalJob])

/-- `BackupExecutor.Execute`: type-assert the object (a mismatch is a fatal
error with no effects); in a terminal status stop the pre-backup
deployments, clean up old backups and return success; in `Started` do
nothing; otherwise ensure the service account, generate the base job and
run `startBackup`. -/
def backupExecute (cfg : Config) (env : BackupEnv) (obj : K8upObject) :
    Except String Unit × List BackupEffect :=
  match obj with
  | K8upObject.backup b =>
    if b.status.hasFailed || b.status.hasSucceeded then
      (Except.ok (),
        [BackupEffect.stopPreBackupDeployments, BackupEffect.cleanupOldBackups])
    else if b.status.hasStarted then
      (Except.ok (), [])
    else
      match env.createSAErr with
      | some e => (Except.error e, [BackupEffect.createServiceAccountAndBinding])
      | none =>
        match env.generateJob with
        | Except.error e =>
          (Except.error e, [BackupEffect.createServiceAccountAndBinding])
        | Except.ok genericJob =>
          let r := startBackup cfg b env genericJob
          (r.1, BackupEffect.createServiceAccountAndBinding :: r.2)
  | _ => (Except.error "object is not a backup", [])

/-- The CA cert path a check's backend carries, `""` when backend or
options are absent. -/
def caCertOf (c : Check) : String :=
  match c.spec.backend with
  | some b =>
    match b.options with
    | some o => o.caCert
    | none => ""
  | none => ""

/-- The client cert path a check's backend carries, `""` when absent. -/
def clientCertOf (c : Check) : String :=
  match c.spec.backend with
  | some b =>
    match b.options with
    | some o => o.clientCert
    | none => ""
  | none => ""

/-- The client key path a check's backend carries, `""` when absent. -/
def clientKeyOf (c : Check) : String :=
  match c.spec.backend with
  | some b =>
    match b.options with
    | some o => o.clientKey
    | none => ""
  | none => ""

/-- The volume lists of the workloads a backup `Execute` run handed to
`CreateObjectIfNotExisting`. -/
def createdJobVolumes (effs : List BackupEffect) : List (List Volume) :=
  effs.filterMap fun e =>
    match e with
    | BackupEffect.createObjectIfNotExisting j => some j.volumes
    | _ => none

/-! Helper lemmas about the PVC filter. -/

/-- One loop iteration appends the claim's volume exactly when the claim is
eligible. -/
theorem filterStep_eq (key : String) (vols : List Volume) (item : PVC) :
    filterStep key vols item =
      if pvcEligible key item then vols ++ [mkPVCVolume item] else vols := by
  cases h : item.annos.lookup key with
  | none =>
    simp only [filterStep, pvcEligible, h]
    cases containsAccessMode item.accessModes "ReadWriteMany" <;> simp
  | some v =>
    simp only [filterStep, pvcEligible, h]
    cases hb : (parseBool v).getD false <;> simp [hb]

/-- Folding the loop from any accumulator appends the eligible claims'
volumes in list order. -/
theorem foldl_filterStep (key : String) (items : List PVC) :
    ∀ acc : List Volume,
      items.foldl (filterStep key) acc
        = acc ++ (items.filter (pvcEligible key)).map mkPVCVolume := by
  induction items with
  | nil => intro acc; simp
  | cons x rest ih =>
    intro acc
    rw [List.foldl_cons, filterStep_eq, ih]
    by_cases hx : pvcEligible key x
    · simp [hx]
    · simp [hx]

/-- `listAndFilterPVCs` is the eligible claims mapped to their volumes, in
input order. -/
theorem listAndFilterPVCs_eq (key : String) (items : List PVC) :
    listAndFilterPVCs key items
      = (items.filter (pvcEligible key)).map mkPVCVolume := by
  simpa using foldl_filterStep key items []

/-- With pairwise-distinct claim names, filtering the eligible claims down
to one name yields exactly that claim. -/
theorem filter_eligible_name_unique (key : String) (item : PVC) :
    ∀ items : List PVC, (items.map PVC.name).Nodup → item ∈ items →
      pvcEligible key item = true →
      (items.filter (pvcEligible key)).filter (fun i => i.name == item.name)
        = [item] := by
  intro items
  induction items with
  | nil => intro _ hmem; cases hmem
  | cons x rest ih =>
    intro hnd hmem helig
    rw [List.map_cons, List.nodup_cons] at hnd
    obtain ⟨hx_not, hrest⟩ := hnd
    by_cases hxi : x = item
    · subst hxi
      have hrest_nil :
          (rest.filter (pvcEligible key)).filter (fun i => i.name == x.name)
            = [] := by
        apply List.filter_eq_nil_iff.mpr
        intro i hi
        have hi_mem : i ∈ rest := List.mem_of_mem_filter hi
        simp only [beq_iff_eq]
        intro hname
        exact hx_not (hname ▸ List.mem_map_of_mem PVC.name hi_mem)
      simp [helig, hrest_nil]
    · have hmem_rest : item ∈ rest := by
        cases List.mem_cons.mp hmem with
        | inl h => exact absurd h.symm hxi
        | inr h => exact h
      have hname_ne : (x.name == item.name) = false := by
        simp only [beq_eq_false_iff_ne, ne_eq]
        intro hname
        exact hx_not (hname ▸ List.mem_map_of_mem PVC.name hmem_rest)
      by_cases hex : pvcEligible key x
      · rw [List.filter_cons_of_pos hex,
          List.filter_cons_of_neg (by simp [hname_ne])]
        exact ih hrest hmem_rest helig
      · rw [List.filter_cons_of_neg (by simp [hex])]
        exact ih hrest hmem_rest helig

/-- Unfolding `pvcEligible` when the annotation is absent. -/
theorem pvcEligible_none (key : String) (i : PVC)
    (hl : i.annos.lookup key = none) :
    pvcEligible key i = containsAccessMode i.accessModes "ReadWriteMany" := by
  unfold pvcEligible
  rw [hl]

/-- Unfolding `pvcEligible` when the annotation is present. -/
theorem pvcEligible_some (key : String) (i : PVC) (v : String)
    (hl : i.annos.lookup key = some v) :
    pvcEligible key i = (parseBool v).getD false := by
  unfold pvcEligible
  rw [hl]

/-- C1: among listed claims with pairwise-distinct names, volume discovery
includes a claim iff it has access mode ReadWriteMany and no annotation, or
its annotation is present and parses to true; the four table rows follow by
instantiation. -/
theorem c1_pvc_eligibility_table (key : String) (items : List PVC)
    (item : PVC) (hnd : (items.map PVC.name).Nodup) (hmem : item ∈ items) :
    mkPVCVolume item ∈ listAndFilterPVCs key items ↔
      ((containsAccessMode item.accessModes "ReadWriteMany" = true ∧
          item.annos.lookup key = none) ∨
        (∃ v, item.annos.lookup key = some v ∧ parseBool v = some true)) := by
  rw [listAndFilterPVCs_eq]
  constructor
  · intro h
    obtain ⟨i, hi, heq⟩ := List.mem_map.mp h
    obtain ⟨hi_mem, hi_elig⟩ := List.mem_filter.mp hi
    have hname : i.name = item.name := congrArg Volume.name heq
    have hii : i = item := List.inj_on_of_nodup_map hnd hi_mem hmem hname
    subst hii
    cases hl : i.annos.lookup key with
    | none =>
      rw [pvcEligible_none key i hl] at hi_elig
      exact Or.inl ⟨hi_elig, rfl⟩
    | some v =>
      rw [pvcEligible_some key i v hl] at hi_elig
      cases hp : parseBool v with
      | none => rw [hp] at hi_elig; simp at hi_elig
      | some b =>
        rw [hp] at hi_elig
        simp only [Option.getD_some] at hi_elig
        subst hi_elig
        exact Or.inr ⟨v, rfl, hp⟩
  · intro h
    apply List.mem_map_of_mem
    apply List.mem_filter.mpr
    refine ⟨hmem, ?_⟩
    rcases h with ⟨hr, hl⟩ | ⟨v, hl, hp⟩
    · rw [pvcEligible_none key item hl]; exact hr
    · rw [pvcEligible_some key item v hl, hp]; rfl

/-- Witness for C1: an RWX claim with no annotation, listed next to a
non-RWX one, is included. -/
theorem c1_pvc_eligibility_table_witness :
    mkPVCVolume ⟨"data", ["ReadWriteMany"], []⟩ ∈
      listAndFilterPVCs "k8up.io/backup"
        [⟨"data", ["ReadWriteMany"], []⟩, ⟨"logs", ["ReadWriteOnce"], []⟩] :=
  (c1_pvc_eligibility_table "k8up.io/backup" _ _ (by decide)
      (by decide)).mpr (Or.inl ⟨by decide, rfl⟩)

/-- C2 counterexample: a claim whose annotation value does not `ParseBool`
(`"maybe"`) is excluded by discovery, even though it is RWX and the
annotation is present — the claim says it would be included. -/
theorem c2_unparsable_value_counterexample :
    parseBool "maybe" = none ∧
    (PVC.mk "data" ["ReadWriteMany"]
        [("k8up.io/backup", "maybe")]).annos.lookup "k8up.io/backup"
      = some "maybe" ∧
    listAndFilterPVCs "k8up.io/backup"
      [⟨"data", ["ReadWriteMany"], [("k8up.io/backup", "maybe")]⟩] = [] := by
  refine ⟨rfl, rfl, by decide⟩

/-- C2 (amended): a present-but-unparsable annotation value is treated as
false and the claim is excluded; the parse failure is never fatal
(discovery still returns the remaining list). -/
theorem c2_unparsable_value_excluded (key : String) (items : List PVC)
    (item : PVC) (v : String) (hnd : (items.map PVC.name).Nodup)
    (hmem : item ∈ items) (hl : item.annos.lookup key = some v)
    (hp : parseBool v = none) :
    mkPVCVolume item ∉ listAndFilterPVCs key items := by
  rw [listAndFilterPVCs_eq]
  intro h
  obtain ⟨i, hi, heq⟩ := List.mem_map.mp h
  obtain ⟨hi_mem, hi_elig⟩ := List.mem_filter.mp hi
  have hname : i.name = item.name := congrArg Volume.name heq
  have hii : i = item := List.inj_on_of_nodup_map hnd hi_mem hmem hname
  subst hii
  rw [pvcEligible_some key i v hl, hp] at hi_elig
  simp at hi_elig

/-- Witness for the amended C2: the RWX claim annotated `"maybe"` is not in
the discovered volume list. -/
theorem c2_unparsable_value_excluded_witness :
    mkPVCVolume ⟨"data", ["ReadWriteMany"], [("k", "maybe")]⟩ ∉
      listAndFilterPVCs "k" [⟨"data", ["ReadWriteMany"], [("k", "maybe")]⟩] :=
  c2_unparsable_value_excluded "k" _ _ "maybe" (by decide) (by decide) rfl rfl

/-- C10: discovery maps the accepted claims, in listing order, to volumes
named after the claim with a persistent-volume-claim source referencing
it; with pairwise-distinct claim names each accepted claim yields exactly
one volume carrying its name. -/
theorem c10_accepted_pvc_volumes (key : String) (items : List PVC)
    (hnd : (items.map PVC.name).Nodup) :
    listAndFilterPVCs key items
      = (items.filter (pvcEligible key)).map mkPVCVolume ∧
    (∀ item ∈ items, pvcEligible key item = true →
      (listAndFilterPVCs key items).filter (fun v => v.name == item.name)
        = [mkPVCVolume item]) := by
  refine ⟨listAndFilterPVCs_eq key items, ?_⟩
  intro item hmem helig
  rw [listAndFilterPVCs_eq, List.filter_map]
  have hcomp : ((fun v : Volume => v.name == item.name) ∘ mkPVCVolume)
      = fun i : PVC => i.name == item.name := rfl
  rw [hcomp, filter_eligible_name_unique key item items hnd hmem helig]
  rfl

/-- Witness for C10: with two distinctly-named claims, the accepted RWX one
maps to exactly one volume named after it. -/
theorem c10_accepted_pvc_volumes_witness :
    (listAndFilterPVCs "k"
        [⟨"a1", ["ReadWriteMany"], []⟩, ⟨"b2", ["ReadWriteOnce"], []⟩]).filter
        (fun v => v.name == "a1")
      = [mkPVCVolume ⟨"a1", ["ReadWriteMany"], []⟩] :=
  (c10_accepted_pvc_volumes "k"
      [⟨"a1", ["ReadWriteMany"], []⟩, ⟨"b2", ["ReadWriteOnce"], []⟩]
      (by decide)).2 ⟨"a1", ["ReadWriteMany"], []⟩ (by decide) (by decide)

/-- A declared spec volume never maps to the scratch volume: its source is
one of the three references, never `EmptyDir`. -/
theorem specVolumeSource_ne_scratch (v : SpecVolume) (vol : Volume)
    (h : specVolumeSource v = some vol) : vol ≠ ku8pVolume := by
  intro hvol
  subst hvol
  obtain ⟨n, pc, sec, cm⟩ := v
  cases pc with
  | some claim => simp [specVolumeSource, ku8pVolume] at h
  | none =>
    cases sec with
    | some s => simp [specVolumeSource, ku8pVolume] at h
    | none =>
      cases cm with
      | some m => simp [specVolumeSource, ku8pVolume] at h
      | none => simp [specVolumeSource] at h

/-- C3 counterexample: a backup in `NotStarted` with ready hooks and an
empty PVC discovery creates a workload whose volume list holds zero
scratch volumes, not exactly one. -/
theorem c3_backup_no_scratch_counterexample :
    (createdJobVolumes
        (backupExecute ⟨"/k8up", "k8up.io/backup", "backup-sa"⟩
            ⟨none, Except.ok ⟨[], ""⟩, Except.ok true, Except.ok [], none⟩
            (K8upObject.backup ⟨⟨BackupPhase.notStarted, false⟩⟩)).2).map
        countScratch
      = [0] := by
  rfl

/-- C3 (amended): every check volume list contains exactly one scratch
volume, even with zero declared volumes; the backup's discovered volume
list — the list `startBackup` installs as the workload's volumes — never
contains a scratch volume. -/
theorem c3_scratch_volume (c : Check) (key : String) (items : List PVC) :
    countScratch (attachMoreVolumes c) = 1 ∧
    countScratch (listAndFilterPVCs key items) = 0 := by
  constructor
  · unfold attachMoreVolumes
    by_cases hz : zeroLen c.spec.volumes = true
    · rw [if_pos hz]
      decide
    · rw [if_neg hz]
      unfold countScratch
      have h0 : ((c.spec.volumes.getD []).filterMap specVolumeSource).countP
          (fun v => v == ku8pVolume) = 0 := by
        apply List.countP_eq_zero.mpr
        intro vol hvol
        obtain ⟨sv, _, hsv⟩ := List.mem_filterMap.mp hvol
        have hne := specVolumeSource_ne_scratch sv vol hsv
        simp [hne]
      rw [List.countP_cons, h0]
      decide
  · rw [listAndFilterPVCs_eq]
    unfold countScratch
    apply List.countP_eq_zero.mpr
    intro vol hvol
    obtain ⟨i, _, hi⟩ := List.mem_map.mp hvol
    subst hi
    simp [mkPVCVolume, ku8pVolume]

/-- C4: in a terminal status (Succeeded or Failed), the backup Execute
stops the pre-backup deployments, runs the old-backup cleanup, creates no
workload, and returns success. -/
theorem c4_terminal_cleanup (cfg : Config) (env : BackupEnv) (b : Backup)
    (h : b.status.phase = BackupPhase.succeeded ∨
      b.status.phase = BackupPhase.failed) :
    backupExecute cfg env (K8upObject.backup b)
      = (Except.ok (), [BackupEffect.stopPreBackupDeployments,
          BackupEffect.cleanupOldBackups]) ∧
    ((backupExecute cfg env (K8upObject.backup b)).2.countP
      BackupEffect.isCreate) = 0 := by
  obtain ⟨⟨ph, w⟩⟩ := b
  rcases h with h | h
  · have hph : ph = BackupPhase.succeeded := h
    subst hph
    exact ⟨rfl, rfl⟩
  · have hph : ph = BackupPhase.failed := h
    subst hph
    exact ⟨rfl, rfl⟩

/-- Witness for C4: a succeeded backup triggers exactly the teardown and
cleanup effects and returns success. -/
theorem c4_terminal_cleanup_witness :
    backupExecute ⟨"/k8up", "k", "sa"⟩
        ⟨none, Except.ok ⟨[], ""⟩, Except.ok true, Except.ok [], none⟩
        (K8upObject.backup ⟨⟨BackupPhase.succeeded, false⟩⟩)
      = (Except.ok (), [BackupEffect.stopPreBackupDeployments,
          BackupEffect.cleanupOldBackups]) :=
  (c4_terminal_cleanup ⟨"/k8up", "k", "sa"⟩
      ⟨none, Except.ok ⟨[], ""⟩, Except.ok true, Except.ok [], none⟩
      ⟨⟨BackupPhase.succeeded, false⟩⟩ (Or.inl rfl)).1

/-- C5: with Status Started, the backup Execute returns success with no
effects at all; two consecutive invocations therefore issue zero
workload-creation calls. -/
theorem c5_started_noop (cfg : Config) (env : BackupEnv) (b : Backup)
    (h : b.status.phase = BackupPhase.started) :
    backupExecute cfg env (K8upObject.backup b) = (Except.ok (), []) ∧
    ((backupExecute cfg env (K8upObject.backup b)).2
        ++ (backupExecute cfg env (K8upObject.backup b)).2).countP
      BackupEffect.isCreate = 0 := by
  obtain ⟨⟨ph, w⟩⟩ := b
  have hph : ph = BackupPhase.started := h
  subst hph
  exact ⟨rfl, rfl⟩

/-- Witness for C5: a started backup yields success and an empty effect
trace. -/
theorem c5_started_noop_witness :
    backupExecute ⟨"/k8up", "k", "sa"⟩
        ⟨none, Except.ok ⟨[], ""⟩, Except.ok true, Except.ok [], none⟩
        (K8upObject.backup ⟨⟨BackupPhase.started, false⟩⟩)
      = (Except.ok (), []) :=
  (c5_started_noop ⟨"/k8up", "k", "sa"⟩
      ⟨none, Except.ok ⟨[], ""⟩, Except.ok true, Except.ok [], none⟩
      ⟨⟨BackupPhase.started, false⟩⟩ rfl).1

/-- C6: with Status NotStarted, when hooks report not-ready or the backup
is flagged waiting-for-pre-backup (and the service-account ensure, job
generation and hook start themselves succeed), Execute defers: it returns
success having only ensured the service account, creating no workload. -/
theorem c6_prebackup_defer (cfg : Config) (env : BackupEnv) (b : Backup)
    (j : BackupJob) (ready : Bool)
    (hphase : b.status.phase = BackupPhase.notStarted)
    (hsa : env.createSAErr = none)
    (hgen : env.generateJob = Except.ok j)
    (hpre : env.startPre = Except.ok ready)
    (hdefer : ready = false ∨ b.status.waitingForPreBackup = true) :
    backupExecute cfg env (K8upObject.backup b)
      = (Except.ok (), [BackupEffect.createServiceAccountAndBinding]) := by
  obtain ⟨⟨ph, w⟩⟩ := b
  obtain ⟨sa, gen, pre, fetch, crt⟩ := env
  have hph : ph = BackupPhase.notStarted := hphase
  subst hph
  have h1 : sa = none := hsa
  subst h1
  have h2 : gen = Except.ok j := hgen
  subst h2
  have h3 : pre = Except.ok ready := hpre
  subst h3
  rcases hdefer with h | h
  · have h4 : ready = false := h
    subst h4
    rfl
  · have h4 : w = true := h
    subst h4
    cases ready <;> rfl

/-- Witness for C6: not-started backup, hooks not ready, everything else
healthy — Execute returns success with only the service-account effect. -/
theorem c6_prebackup_defer_witness :
    backupExecute ⟨"/k8up", "k", "sa"⟩
        ⟨none, Except.ok ⟨[], ""⟩, Except.ok false, Except.ok [], none⟩
        (K8upObject.backup ⟨⟨BackupPhase.notStarted, false⟩⟩)
      = (Except.ok (), [BackupEffect.createServiceAccountAndBinding]) :=
  c6_prebackup_defer ⟨"/k8up", "k", "sa"⟩
    ⟨none, Except.ok ⟨[], ""⟩, Except.ok false, Except.ok [], none⟩
    ⟨⟨BackupPhase.notStarted, false⟩⟩ ⟨[], ""⟩ false rfl rfl rfl rfl
    (Or.inl rfl)

/-- C7: the check args are exactly the fixed head, then `-caCert` iff the
CA cert path is non-empty, then the client cert/key pair iff both are
non-empty. -/
theorem c7_check_args (cfg : Config) (c : Check) :
    setupArgs cfg c
      = ["-varDir", cfg.podVarDir, "-check"]
        ++ (if caCertOf c ≠ "" then ["-caCert", caCertOf c] else [])
        ++ (if clientCertOf c ≠ "" ∧ clientKeyOf c ≠ "" then
              ["-clientCert", clientCertOf c, "-clientKey", clientKeyOf c]
            else []) := by
  obtain ⟨name, ns, ⟨backend, vols⟩⟩ := c
  cases backend with
  | none =>
    simp [setupArgs, appendOptionsArgs, caCertOf, clientCertOf, clientKeyOf]
  | some b =>
    obtain ⟨opts, vm⟩ := b
    cases opts with
    | none =>
      simp [setupArgs, appendOptionsArgs, caCertOf, clientCertOf, clientKeyOf]
    | some o =>
      obtain ⟨ca, cc, ck⟩ := o
      by_cases hca : ca = "" <;>
        by_cases hcc : cc = "" <;>
          by_cases hck : ck = "" <;>
            simp [setupArgs, appendOptionsArgs, caCertOf, clientCertOf,
              clientKeyOf, hca, hcc, hck]

/-- C8: on upsert failure the check Execute reports
`Ready=False/CreationFailed` carrying the error text and returns the
error; on success it reports a started condition naming the created
workload and returns success. -/
theorem c8_check_upsert_outcome (cfg : Config) (c : Check) :
    (∀ e, (checkExecute cfg c (some e)).1
        = (some e, [CheckEffect.conditionFalse "Ready" "CreationFailed"
            ("could not create job: " ++ e)])) ∧
    (checkExecute cfg c none).1
      = (none, [CheckEffect.started
          ("the job " ++ c.ns ++ "/" ++ jobName c ++ " was created")]) :=
  ⟨fun _ => rfl, rfl⟩

/-- C9 counterexample: handing a Backup object to the check executor's
constructor trips the unchecked cast (modelled as `none`): no executor is
built and no `Execute` ever returns a type-mismatch error, contradicting
the claim that every executor surfaces the mismatch as an `Execute`
error rather than crashing. -/
theorem c9_check_cast_counterexample :
    newCheckExecutor (K8upObject.backup ⟨⟨BackupPhase.notStarted, false⟩⟩)
      = none := by
  rfl

/-- C9 (amended): the backup executor's Execute on a non-Backup object
fails with the type-mismatch error, with no teardown, cleanup or workload
creation; the check executor instead panics at construction (modelled
`none`) on a non-Check object, before any Execute. -/
theorem c9_type_mismatch (cfg : Config) (env : BackupEnv)
    (obj objc : K8upObject)
    (hb : ∀ b : Backup, obj ≠ K8upObject.backup b)
    (hc : ∀ c : Check, objc ≠ K8upObject.check c) :
    backupExecute cfg env obj = (Except.error "object is not a backup", []) ∧
    newCheckExecutor objc = none := by
  constructor
  · cases obj with
    | backup b => exact absurd rfl (hb b)
    | check c => rfl
    | other s => rfl
  · cases objc with
    | check c => exact absurd rfl (hc c)
    | backup b => rfl
    | other s => rfl

/-- Witness for the amended C9: a Check object handed to the backup
executor yields the fatal error with no effects, and a Backup object
handed to the check constructor panics. -/
theorem c9_type_mismatch_witness :
    backupExecute ⟨"/k8up", "k", "sa"⟩
        ⟨none, Except.ok ⟨[], ""⟩, Except.ok true, Except.ok [], none⟩
        (K8upObject.check ⟨"c", "ns", ⟨none, none⟩⟩)
      = (Except.error "object is not a backup", []) ∧
    newCheckExecutor (K8upObject.backup ⟨⟨BackupPhase.started, false⟩⟩)
      = none :=
  c9_type_mismatch ⟨"/k8up", "k", "sa"⟩
    ⟨none, Except.ok ⟨[], ""⟩, Except.ok true, Except.ok [], none⟩
    (K8upObject.check ⟨"c", "ns", ⟨none, none⟩⟩)
    (K8upObject.backup ⟨⟨BackupPhase.started, false⟩⟩)
    (fun b h => K8upObject.noConfusion h)
    (fun c h => K8upObject.noConfusion h)
